import Mathlib

/-!
Verification development for the Weather Probability API backend
(`backend/main.py`).  The Python program is shallowly embedded: Python
floats appearing in this program are exact decimal numbers (every literal
and every upstream JSON scalar is decimal), so they are modelled as a
mantissa/exponent pair `m / 10 ^ e`; Python `int` is `ℤ`; fallible
operations return `Option`/`Except`.  The MD5 digest used by
`_seed_number` is implemented in full (RFC 1321) over `ℕ` bytes.
-/

/-! ## Python numeric model: exact decimals -/

/-- A Python float value appearing in this program: the exact decimal
`m / 10 ^ e`. -/
structure PyFloat where
  m : ℤ
  e : ℕ
deriving DecidableEq, Repr

/-- The rational value of a decimal. -/
def PyFloat.toRat (p : PyFloat) : ℚ := (p.m : ℚ) / (10 : ℚ) ^ p.e

/-- Python `a <= b` on floats. -/
def pyLe (a b : PyFloat) : Prop := a.m * 10 ^ b.e ≤ b.m * 10 ^ a.e

instance (a b : PyFloat) : Decidable (pyLe a b) :=
  inferInstanceAs (Decidable (_ ≤ _))

/-- Python `a < b` on floats. -/
def pyLt (a b : PyFloat) : Prop := a.m * 10 ^ b.e < b.m * 10 ^ a.e

instance (a b : PyFloat) : Decidable (pyLt a b) :=
  inferInstanceAs (Decidable (_ < _))

/-- Python `min(a, b)`. -/
def pyMin (a b : PyFloat) : PyFloat := if pyLe a b then a else b

/-- Python `max(a, b)`. -/
def pyMax (a b : PyFloat) : PyFloat := if pyLe a b then b else a

/-- Python `a * b` on decimals. -/
def pyMul (a b : PyFloat) : PyFloat := ⟨a.m * b.m, a.e + b.e⟩

/-- Python `a - b` on decimals. -/
def pySub (a b : PyFloat) : PyFloat := ⟨a.m * 10 ^ b.e - b.m * 10 ^ a.e, a.e + b.e⟩

/-- An integer literal as a Python float. -/
def pyOfInt (n : ℤ) : PyFloat := ⟨n, 0⟩

/-- `math.floor`, used through integer division by the power of ten. -/
def pyFloor (p : PyFloat) : ℤ := p.m / (10 : ℤ) ^ p.e

/-- Ceiling of a decimal. -/
def pyCeil (p : PyFloat) : ℤ := -((-p.m) / (10 : ℤ) ^ p.e)

/-- Python `round` (banker's rounding, round half to even) on a decimal,
compared against the half point through the scaled remainder. -/
def pyRound (p : PyFloat) : ℤ :=
  let f := pyFloor p
  let rem := p.m - f * 10 ^ p.e
  if 2 * rem < 10 ^ p.e then f
  else if (10 : ℤ) ^ p.e < 2 * rem then f + 1
  else if f % 2 = 0 then f else f + 1

/-- Python `int(...)` on a float: truncation toward zero. -/
def pyTrunc (p : PyFloat) : ℤ := if 0 ≤ p.m then pyFloor p else pyCeil p

/-- Round half to even on `ℚ`, the reference form of `pyRound` used in
proofs. -/
def ratRound (q : ℚ) : ℤ :=
  if q - ⌊q⌋ < 1 / 2 then ⌊q⌋
  else if 1 / 2 < q - ⌊q⌋ then ⌊q⌋ + 1
  else if ⌊q⌋ % 2 = 0 then ⌊q⌋ else ⌊q⌋ + 1

/-! ## Python string helpers -/

/-- Python `str.lower()` (the inputs of this program are ASCII). -/
def lowerStr (s : String) : String := String.mk (s.toList.map Char.toLower)

/-- Python `"|".join(strings)`. -/
def joinParts : List String → String
  | [] => ""
  | [s] => s
  | s :: rest => s ++ "|" ++ joinParts rest

/-- Python `date.replace("-", "")`. -/
def removeDashes (s : String) : String :=
  String.mk (s.toList.filter (fun c => !(c == '-')))

/-- Split a character list on a separator, keeping empty groups, like
Python `str.split(sep)`. -/
def splitOnChar (sep : Char) : List Char → List (List Char)
  | [] => [[]]
  | c :: rest =>
    let r := splitOnChar sep rest
    if c = sep then [] :: r
    else
      match r with
      | [] => [[c]]
      | g :: gs => (c :: g) :: gs

/-- Is `c` an ASCII digit? -/
def isDigitChar (c : Char) : Bool := decide (48 ≤ c.toNat) && decide (c.toNat ≤ 57)

/-- Parse a nonempty all-digit character group as a natural number. -/
def charsToNat? (cs : List Char) : Option ℕ :=
  if cs = [] then none
  else if cs.all isDigitChar then
    some (cs.foldl (fun a c => a * 10 + (c.toNat - 48)) 0)
  else none

/-! ## MD5 (RFC 1321), as called through `hashlib.md5` -/

/-- 32-bit left rotation. -/
def rotl32 (x n : ℕ) : ℕ := ((x <<< n) ||| (x >>> (32 - n))) % 4294967296

/-- The 64 MD5 sine-derived constants. -/
def md5K : List ℕ := [
  0xd76aa478, 0xe8c7b756, 0x242070db, 0xc1bdceee,
  0xf57c0faf, 0x4787c62a, 0xa8304613, 0xfd469501,
  0x698098d8, 0x8b44f7af, 0xffff5bb1, 0x895cd7be,
  0x6b901122, 0xfd987193, 0xa679438e, 0x49b40821,
  0xf61e2562, 0xc040b340, 0x265e5a51, 0xe9b6c7aa,
  0xd62f105d, 0x02441453, 0xd8a1e681, 0xe7d3fbc8,
  0x21e1cde6, 0xc33707d6, 0xf4d50d87, 0x455a14ed,
  0xa9e3e905, 0xfcefa3f8, 0x676f02d9, 0x8d2a4c8a,
  0xfffa3942, 0x8771f681, 0x6d9d6122, 0xfde5380c,
  0xa4beea44, 0x4bdecfa9, 0xf6bb4b60, 0xbebfbc70,
  0x289b7ec6, 0xeaa127fa, 0xd4ef3085, 0x04881d05,
  0xd9d4d039, 0xe6db99e5, 0x1fa27cf8, 0xc4ac5665,
  0xf4292244, 0x432aff97, 0xab9423a7, 0xfc93a039,
  0x655b59c3, 0x8f0ccc92, 0xffeff47d, 0x85845dd1,
  0x6fa87e4f, 0xfe2ce6e0, 0xa3014314, 0x4e0811a1,
  0xf7537e82, 0xbd3af235, 0x2ad7d2bb, 0xeb86d391]

/-- The 64 MD5 per-round shift amounts. -/
def md5S : List ℕ := [
  7, 12, 17, 22, 7, 12, 17, 22, 7, 12, 17, 22, 7, 12, 17, 22,
  5, 9, 14, 20, 5, 9, 14, 20, 5, 9, 14, 20, 5, 9, 14, 20,
  4, 11, 16, 23, 4, 11, 16, 23, 4, 11, 16, 23, 4, 11, 16, 23,
  6, 10, 15, 21, 6, 10, 15, 21, 6, 10, 15, 21, 6, 10, 15, 21]

/-- The MD5 round function for round `i`. -/
def md5F (i b c d : ℕ) : ℕ :=
  if i < 16 then (b &&& c) ||| ((b ^^^ 0xffffffff) &&& d)
  else if i < 32 then (d &&& b) ||| ((d ^^^ 0xffffffff) &&& c)
  else if i < 48 then b ^^^ c ^^^ d
  else c ^^^ (b ||| (d ^^^ 0xffffffff))

/-- The MD5 message-word index for round `i`. -/
def md5G (i : ℕ) : ℕ :=
  if i < 16 then i
  else if i < 32 then (5 * i + 1) % 16
  else if i < 48 then (3 * i + 5) % 16
  else (7 * i) % 16

/-- Little-endian 32-bit word `j` of a 64-byte chunk. -/
def leWord (bytes : List ℕ) (j : ℕ) : ℕ :=
  bytes.getD (4 * j) 0 + bytes.getD (4 * j + 1) 0 * 256 +
  bytes.getD (4 * j + 2) 0 * 65536 + bytes.getD (4 * j + 3) 0 * 16777216

/-- Process one 64-byte chunk into the running MD5 state. -/
def md5Chunk (chunk : List ℕ) (h : ℕ × ℕ × ℕ × ℕ) : ℕ × ℕ × ℕ × ℕ :=
  let r := (List.range 64).foldl (fun (st : ℕ × ℕ × ℕ × ℕ) i =>
    let F := (md5F i st.2.1 st.2.2.1 st.2.2.2 + st.1 + md5K.getD i 0 +
      leWord chunk (md5G i)) % 4294967296
    (st.2.2.2, (st.2.1 + rotl32 F (md5S.getD i 0)) % 4294967296, st.2.1, st.2.2.1)) h
  ((h.1 + r.1) % 4294967296, (h.2.1 + r.2.1) % 4294967296,
   (h.2.2.1 + r.2.2.1) % 4294967296, (h.2.2.2 + r.2.2.2) % 4294967296)

/-- The 16-byte MD5 digest of a byte sequence. -/
def md5Bytes (msg : List ℕ) : List ℕ :=
  let padded := msg ++ [0x80] ++ List.replicate ((119 - msg.length % 64) % 64) 0
    ++ (List.range 8).map (fun i => ((msg.length * 8) >>> (8 * i)) % 256)
  let final := (List.range (padded.length / 64)).foldl (fun h ci =>
    md5Chunk ((padded.drop (64 * ci)).take 64) h)
    (0x67452301, 0xefcdab89, 0x98badcfe, 0x10325476)
  [final.1, final.2.1, final.2.2.1, final.2.2.2].flatMap
    (fun w => (List.range 4).map (fun i => (w >>> (8 * i)) % 256))

/-- A hexadecimal digit character. -/
def nibbleChar (n : ℕ) : Char := ("0123456789abcdef".toList).getD n '0'

/-- Lowercase hex string of a byte list, as `hexdigest()` returns. -/
def bytesToHex (bs : List ℕ) : String :=
  String.mk (bs.flatMap (fun b => [nibbleChar (b / 16), nibbleChar (b % 16)]))

/-- UTF-8 encoding of one character, as `str.encode("utf-8")`. -/
def charBytes (c : Char) : List ℕ :=
  let n := c.toNat
  if n < 0x80 then [n]
  else if n < 0x800 then [0xC0 ||| (n >>> 6), 0x80 ||| (n &&& 0x3F)]
  else if n < 0x10000 then
    [0xE0 ||| (n >>> 12), 0x80 ||| ((n >>> 6) &&& 0x3F), 0x80 ||| (n &&& 0x3F)]
  else
    [0xF0 ||| (n >>> 18), 0x80 ||| ((n >>> 12) &&& 0x3F),
     0x80 ||| ((n >>> 6) &&& 0x3F), 0x80 ||| (n &&& 0x3F)]

/-- UTF-8 bytes of a string. -/
def strBytes (s : String) : List ℕ := s.toList.flatMap charBytes

/-- Value of a hexadecimal digit character. -/
def hexVal (c : Char) : ℕ :=
  if 48 ≤ c.toNat ∧ c.toNat ≤ 57 then c.toNat - 48
  else if 97 ≤ c.toNat ∧ c.toNat ≤ 102 then c.toNat - 87
  else if 65 ≤ c.toNat ∧ c.toNat ≤ 70 then c.toNat - 55
  else 0

/-- Python `int(hexstring, 16)`. -/
def hexToNat (s : String) : ℕ := s.toList.foldl (fun acc c => acc * 16 + hexVal c) 0

/-! ## `str(...)` of the scalars the program hashes -/

/-- The decimal digits of a fractional part in `[0, 1)`, most significant
first, with trailing zeros dropped; `fuel` bounds the recursion (the
fraction of a decimal with exponent `e` terminates within `e` digits). -/
def fracDigitChars : PyFloat → ℕ → List Char
  | _, 0 => []
  | p, fuel + 1 =>
    if p.m = 0 then []
    else
      let p10 := pyMul p (pyOfInt 10)
      let d := pyFloor p10
      Char.ofNat (48 + d.toNat) :: fracDigitChars ⟨p10.m - d * 10 ^ p10.e, p10.e⟩ fuel

/-- Python `str(x)` for a float: sign, integer part, `"."`, fraction
digits (at least one, `"0"` when the value is integral). -/
def pyFloatStr (p : PyFloat) : String :=
  let sign := if p.m < 0 then "-" else ""
  let a : PyFloat := ⟨|p.m|, p.e⟩
  let ip := pyFloor a
  let fr : PyFloat := ⟨a.m - ip * 10 ^ a.e, a.e⟩
  let ds := fracDigitChars fr a.e
  sign ++ toString ip.toNat ++ "." ++ (if ds.isEmpty then "0" else String.mk ds)

/-- A scalar argument of `_seed_number`: the program passes floats and
strings. -/
inductive PyScalar where
  | flt : PyFloat → PyScalar
  | str : String → PyScalar
deriving DecidableEq

/-- Python `str(...)` of a scalar part. -/
def pyStr : PyScalar → String
  | .flt p => pyFloatStr p
  | .str s => s

/-- `_seed_number(*parts, modulo)`: join the string forms with `"|"`,
MD5 the UTF-8 bytes, take the first 8 hex digits, reduce mod `modulo`. -/
def seed_number (parts : List PyScalar) (modulo : ℕ) : ℕ :=
  let s := joinParts (parts.map pyStr)
  let h := bytesToHex (md5Bytes (strBytes s))
  hexToNat (String.mk (h.toList.take 8)) % modulo

/-! ## Static mappings (`CONDITION_TO_PARAM`, `COLOR_MAP`, `ALLOWED_CONDITIONS`) -/

/-- The condition-keyword to parameter-code table, in source order. -/
def CONDITION_TO_PARAM : List (String × String) := [
  ("temperature", "T2M"), ("temp", "T2M"), ("hot", "T2M"), ("cold", "T2M"),
  ("precipitation", "PRECTOT"), ("rain", "PRECTOT"), ("wet", "PRECTOT"),
  ("cloud", "CLDTT"), ("clouds", "CLDTT"), ("cloudy", "CLDTT"),
  ("wind", "WS2M"), ("windy", "WS2M")]

/-- Display colors per parameter code. -/
def COLOR_MAP : List (String × String) := [
  ("T2M", "#FF6B3A"), ("PRECTOT", "#3B82FF"), ("CLDTT", "#9CA3FF"), ("WS2M", "#7CE06A")]

/-- Python `dict.get(key)` on an association list. -/
def lookupTable (tbl : List (String × String)) (key : String) : Option String :=
  (tbl.find? (fun kv => kv.1 == key)).map (fun kv => kv.2)

/-- `COLOR_MAP.get(param, "#0b3d91")`. -/
def colorGet (param : String) : String := (lookupTable COLOR_MAP param).getD "#0b3d91"

/-- `list(CONDITION_TO_PARAM.keys())`. -/
def ALLOWED_CONDITIONS : List String := CONDITION_TO_PARAM.map (fun kv => kv.1)

/-! ## Request model and validation -/

/-- The `WeatherRequest` pydantic model. -/
structure WeatherRequest where
  lat : PyFloat
  lng : PyFloat
  date : String
  threshold : ℤ
  conditions : List String
deriving DecidableEq

/-- Is a year a Gregorian leap year (as `datetime` decides it)? -/
def isLeapYear (y : ℕ) : Bool :=
  decide (y % 4 = 0) && (decide (y % 100 ≠ 0) || decide (y % 400 = 0))

/-- Days in a month (as `datetime` decides it). -/
def daysInMonth (y mo : ℕ) : ℕ :=
  if mo = 2 then (if isLeapYear y then 29 else 28)
  else if mo = 4 ∨ mo = 6 ∨ mo = 9 ∨ mo = 11 then 30
  else 31

/-- Does `datetime.strptime(s, "%Y-%m-%d")` succeed?  `%Y` matches
exactly four digits, `%m`/`%d` one or two, and the result must be a real
calendar date with year at least 1. -/
def validDate (s : String) : Bool :=
  match splitOnChar '-' s.toList with
  | [ys, ms, ds] =>
    match charsToNat? ys, charsToNat? ms, charsToNat? ds with
    | some y, some mo, some d =>
      decide (ys.length = 4) && decide (ms.length ≤ 2) && decide (ds.length ≤ 2) &&
      decide (1 ≤ y) && decide (1 ≤ mo) && decide (mo ≤ 12) &&
      decide (1 ≤ d) && decide (d ≤ daysInMonth y mo)
    | _, _, _ => false
  | _ => false

/-- `validate_request`: the sequential checks, first failure wins. -/
def validate_request (req : WeatherRequest) : Except String Unit :=
  if ¬(pyLe (pyOfInt (-90)) req.lat ∧ pyLe req.lat (pyOfInt 90)) then
    .error "Latitude must be -90 to 90"
  else if ¬(pyLe (pyOfInt (-180)) req.lng ∧ pyLe req.lng (pyOfInt 180)) then
    .error "Longitude must be -180 to 180"
  else if validDate req.date = false then
    .error "Date must be YYYY-MM-DD"
  else if ¬(0 ≤ req.threshold ∧ req.threshold ≤ 100) then
    .error "Threshold must be 0-100"
  else
    match req.conditions.find? (fun c => !(ALLOWED_CONDITIONS.contains (lowerStr c))) with
    | some c => .error ("Invalid condition: " ++ c)
    | none => .ok ()

/-! ## Condition resolution (`api_weather` lines 108-114) -/

/-- Resolve condition keywords to parameter codes: lower-case, look up,
append first occurrences only; default when nothing resolves. -/
def resolveParams (conditions : List String) : List String :=
  let requested := conditions.foldl (fun acc cond =>
    match lookupTable CONDITION_TO_PARAM (lowerStr cond) with
    | some param => if param ∈ acc then acc else acc ++ [param]
    | none => acc) []
  if requested = [] then ["T2M", "PRECTOT", "CLDTT"] else requested

/-! ## Upstream fetch (`fetch_nasa_data`) -/

/-- The parsed `properties.parameter` block of the upstream JSON:
per parameter, a per-date scalar lookup. -/
abbrev ParamBlock := List (String × List (String × PyFloat))

/-- What the network interaction produced: any network/parse/HTTP-status
exception, or a parsed parameter block. -/
inductive UpstreamResult where
  | failure
  | success (block : ParamBlock)

/-- `fetch_nasa_data`: return the parsed block, or `{}` when the
`try` body raised for any reason. -/
def fetch_nasa_data (upstream : UpstreamResult) (lat lng : PyFloat) (date : String)
    (params : List String) : ParamBlock :=
  match upstream with
  | .failure => []
  | .success block => block

/-- `param_block[param].get(date_str, None)` on an association list. -/
def lookupDate (vals : List (String × PyFloat)) (d : String) : Option PyFloat :=
  (vals.find? (fun kv => kv.1 == d)).map (fun kv => kv.2)

/-- `param_block[param]` when present. -/
def lookupBlockParam (block : ParamBlock) (param : String) :
    Option (List (String × PyFloat)) :=
  (block.find? (fun kv => kv.1 == param)).map (fun kv => kv.2)

/-- `raw_val`: `if param_block and param in param_block:
param_block[param].get(date_str, None)`. -/
def rawLookup (param_block : ParamBlock) (param date_str : String) : Option PyFloat :=
  if param_block ≠ [] then
    match lookupBlockParam param_block param with
    | some vals => lookupDate vals date_str
    | none => none
  else none

/-! ## Scoring (`api_weather` lines 118-137) -/

/-- `prob_score` for one parameter: the `if/elif` chain over the present
raw value, with the `_seed_number` fallback (the `else` branch always
assigns, so the score is total). -/
def probScore (lat lng : PyFloat) (date param : String) (val : Option PyFloat) : ℤ :=
  match val with
  | some v =>
    if param = "PRECTOT" then min 100 (pyRound (pyMul v (pyOfInt 20)))
    else if param = "CLDTT" then pyRound v
    else if param = "T2M" then
      pyTrunc (pyMax (pyOfInt 0) (pyMin (pyOfInt 100) (pyMul (pySub v (pyOfInt 10)) (pyOfInt 3))))
    else if param = "WS2M" then min 100 (pyRound (pyMul v (pyOfInt 10)))
    else (seed_number [.flt lat, .flt lng, .str param, .str date] 101 : ℤ)
  | none => (seed_number [.flt lat, .flt lng, .str param, .str date] 101 : ℤ)

/-- One element of the `probabilities` list. -/
structure ProbabilityEntry where
  parameter : String
  condition : String
  value : Option ℤ
  raw : Option PyFloat
  color : String
deriving DecidableEq

/-- The loop body appending one probability entry for `param`. -/
def mkEntry (lat lng : PyFloat) (date : String) (param_block : ParamBlock)
    (param : String) : ProbabilityEntry :=
  { parameter := param
    condition := param
    value := some (probScore lat lng date param (rawLookup param_block param (removeDashes date)))
    raw := rawLookup param_block param (removeDashes date)
    color := colorGet param }

/-! ## Trend synthesis (`build_trend`) -/

/-- One per-parameter series of the trend. -/
structure TrendCondition where
  name : String
  values : List ℕ
  color : String
deriving DecidableEq

/-- The `{"years": ..., "conditions": ...}` trend object. -/
structure TrendSeries where
  years : List String
  conditions : List TrendCondition
deriving DecidableEq

/-- `build_trend`, with the current UTC year passed explicitly. -/
def build_trend (lat lng : PyFloat) (cond_params : List String)
    (current_year : ℕ) : TrendSeries :=
  let years := ((List.range 20).reverse).map (fun i => toString (current_year - i))
  let conditions := cond_params.map (fun param =>
    { name := param
      values := years.map (fun y => seed_number [.flt lat, .flt lng, .str param, .str y] 101)
      color := colorGet param : TrendCondition })
  { years := years, conditions := conditions }

/-! ## The `/api/weather` handler -/

/-- The assembled response dictionary. -/
structure WeatherResponse where
  location_name : String
  date : String
  probabilities : List ProbabilityEntry
  trend : TrendSeries
deriving DecidableEq

/-- `f"{x:.4f}"` on a decimal: round half to even at four decimal places. -/
def fmt4 (p : PyFloat) : String :=
  let sign := if p.m < 0 then "-" else ""
  let a : PyFloat := ⟨|p.m|, p.e⟩
  let n := (pyRound (pyMul a (pyOfInt 10000))).toNat
  let fracStr := toString (n % 10000)
  sign ++ toString (n / 10000) ++ "." ++
    String.mk (List.replicate (4 - fracStr.length) '0') ++ fracStr

/-- `api_weather`: validate, resolve conditions, fetch, score each
parameter, synthesize the trend, assemble the response.  A validation
failure becomes the 400 error payload. -/
def api_weather (upstream : UpstreamResult) (req : WeatherRequest)
    (current_year : ℕ) : Except String WeatherResponse :=
  match validate_request req with
  | .error ve => .error ve
  | .ok _ =>
    let requested_params := resolveParams req.conditions
    let param_block := fetch_nasa_data upstream req.lat req.lng req.date requested_params
    .ok
      { location_name := fmt4 req.lat ++ ", " ++ fmt4 req.lng
        date := req.date
        probabilities := requested_params.map (mkEntry req.lat req.lng req.date param_block)
        trend := build_trend req.lat req.lng requested_params current_year }

/-- The probabilities of a handler result (`[]` on the error payload). -/
def probsOf (r : Except String WeatherResponse) : List ProbabilityEntry :=
  match r with
  | .ok resp => resp.probabilities
  | .error _ => []

/-- The trend of a handler result. -/
def trendOf (r : Except String WeatherResponse) : Option TrendSeries :=
  match r with
  | .ok resp => some resp.trend
  | .error _ => none

/-- A CSV cell as `csv.writer` renders it: `None` becomes the empty
string. -/
def csvCell (o : Option String) : String := o.getD ""

/-- The rows `export_csv` writes: the header, then one row per
probability entry. -/
def export_csv_rows (r : Except String WeatherResponse) : List (List String) :=
  ["parameter", "condition", "value", "raw"] :: (probsOf r).map (fun p =>
    [p.parameter, p.condition,
     csvCell (p.value.map (fun v => toString v)),
     csvCell (p.raw.map pyFloatStr)])

/-- The T2M scoring formula as the specification words it —
`clamp(round((raw - 10) * 3), 0, 100)`: round first, then clamp.  Stated
only to compare against the source's `probScore`, which clamps first and
then truncates. -/
def specT2MScore (raw : ℚ) : ℤ := max 0 (min 100 (ratRound ((raw - 10) * 3)))

/-! ## Valuation lemmas: decimal operations against their `ℚ` meaning -/

/-- `pyLe` agrees with `≤` on values. -/
theorem pyLe_iff (a b : PyFloat) : pyLe a b ↔ a.toRat ≤ b.toRat := by
  unfold pyLe PyFloat.toRat
  rw [div_le_div_iff (by positivity) (by positivity)]
  constructor
  · intro h; exact_mod_cast h
  · intro h; exact_mod_cast h

/-- `pyMul` multiplies values. -/
theorem toRat_pyMul (a b : PyFloat) : (pyMul a b).toRat = a.toRat * b.toRat := by
  unfold pyMul PyFloat.toRat
  push_cast
  rw [pow_add]
  field_simp

/-- `pySub` subtracts values. -/
theorem toRat_pySub (a b : PyFloat) : (pySub a b).toRat = a.toRat - b.toRat := by
  unfold pySub PyFloat.toRat
  push_cast
  rw [pow_add]
  field_simp
  ring

/-- `pyOfInt` has the integer's value. -/
theorem toRat_pyOfInt (n : ℤ) : (pyOfInt n).toRat = (n : ℚ) := by
  unfold pyOfInt PyFloat.toRat
  simp

/-- `pyMin` takes the smaller value. -/
theorem toRat_pyMin (a b : PyFloat) : (pyMin a b).toRat = min a.toRat b.toRat := by
  unfold pyMin
  by_cases h : pyLe a b
  · rw [if_pos h, min_eq_left ((pyLe_iff a b).mp h)]
  · rw [if_neg h, min_eq_right (le_of_not_le (fun hc => h ((pyLe_iff a b).mpr hc)))]

/-- `pyMax` takes the larger value. -/
theorem toRat_pyMax (a b : PyFloat) : (pyMax a b).toRat = max a.toRat b.toRat := by
  unfold pyMax
  by_cases h : pyLe a b
  · rw [if_pos h, max_eq_right ((pyLe_iff a b).mp h)]
  · rw [if_neg h, max_eq_left (le_of_not_le (fun hc => h ((pyLe_iff a b).mpr hc)))]

/-- `pyFloor` is the floor of the value. -/
theorem pyFloor_eq (p : PyFloat) : pyFloor p = ⌊p.toRat⌋ := by
  unfold pyFloor PyFloat.toRat
  rw [show ((10 : ℚ) ^ p.e) = ((10 ^ p.e : ℕ) : ℚ) by push_cast; ring,
    Rat.floor_intCast_div_natCast]
  congr 1
  push_cast
  ring

/-- Nonnegative value exactly when the mantissa is. -/
theorem toRat_nonneg_iff (p : PyFloat) : 0 ≤ p.toRat ↔ 0 ≤ p.m := by
  unfold PyFloat.toRat
  rw [le_div_iff (by positivity), zero_mul]
  constructor
  · intro h; exact_mod_cast h
  · intro h; exact_mod_cast h

/-- `pyRound` is at least the floor. -/
theorem pyFloor_le_pyRound (p : PyFloat) : pyFloor p ≤ pyRound p := by
  unfold pyRound
  dsimp only
  split_ifs <;> omega

/-- When the scaled remainder reaches the half point, the fractional part
is at least `1/2`. -/
theorem half_le_frac (p : PyFloat)
    (hge : (10 : ℤ) ^ p.e ≤ 2 * (p.m - pyFloor p * 10 ^ p.e)) :
    1 / 2 ≤ p.toRat - (⌊p.toRat⌋ : ℚ) := by
  rw [← pyFloor_eq]
  have hd : (0 : ℚ) < (10 : ℚ) ^ p.e := by positivity
  have hfr : p.toRat - (pyFloor p : ℚ) =
      ((p.m : ℚ) - (pyFloor p : ℚ) * (10 : ℚ) ^ p.e) / (10 : ℚ) ^ p.e := by
    unfold PyFloat.toRat
    field_simp
    ring
  have hq : (10 : ℚ) ^ p.e ≤ 2 * ((p.m : ℚ) - (pyFloor p : ℚ) * (10 : ℚ) ^ p.e) := by
    exact_mod_cast hge
  rw [hfr, le_div_iff hd]
  linarith

/-- Lower bound for `pyRound` from a lower bound on the value. -/
theorem le_pyRound (n : ℤ) (p : PyFloat) (h : (n : ℚ) ≤ p.toRat) : n ≤ pyRound p :=
  calc n = ⌊(n : ℚ)⌋ := (Int.floor_intCast n).symm
    _ ≤ ⌊p.toRat⌋ := Int.floor_le_floor h
    _ = pyFloor p := (pyFloor_eq p).symm
    _ ≤ pyRound p := pyFloor_le_pyRound p

/-- Upper bound for `pyRound` from an upper bound on the value. -/
theorem pyRound_le (n : ℤ) (p : PyFloat) (h : p.toRat ≤ (n : ℚ)) : pyRound p ≤ n := by
  have hfle : pyFloor p ≤ n := by
    rw [pyFloor_eq]
    calc ⌊p.toRat⌋ ≤ ⌊(n : ℚ)⌋ := Int.floor_le_floor h
      _ = n := Int.floor_intCast n
  have hplus : (10 : ℤ) ^ p.e ≤ 2 * (p.m - pyFloor p * 10 ^ p.e) → pyFloor p + 1 ≤ n := by
    intro hge
    have hfr := half_le_frac p hge
    have : (⌊p.toRat⌋ : ℚ) < (n : ℚ) := by linarith
    have : ⌊p.toRat⌋ < n := by exact_mod_cast this
    rw [pyFloor_eq]
    omega
  unfold pyRound
  dsimp only
  split_ifs with h1 h2 h3
  · exact hfle
  · exact hplus (by omega)
  · exact hfle
  · exact hplus (by omega)

/-- On nonnegative values `pyTrunc` is the floor. -/
theorem pyTrunc_eq_floor (p : PyFloat) (h : 0 ≤ p.toRat) : pyTrunc p = ⌊p.toRat⌋ := by
  unfold pyTrunc
  rw [if_pos ((toRat_nonneg_iff p).mp h), pyFloor_eq]

/-- The generator output is below the modulus. -/
theorem seed_number_lt (parts : List PyScalar) (modulo : ℕ) (h : 0 < modulo) :
    seed_number parts modulo < modulo :=
  Nat.mod_lt _ h

/-- The generator output, cast to `ℤ` with modulus 101, is in `[0, 100]`. -/
theorem seed_score_range (parts : List PyScalar) :
    0 ≤ ((seed_number parts 101 : ℕ) : ℤ) ∧ ((seed_number parts 101 : ℕ) : ℤ) ≤ 100 := by
  refine ⟨Int.natCast_nonneg _, ?_⟩
  have := seed_number_lt parts 101 (by norm_num)
  exact_mod_cast Nat.lt_succ_iff.mp this

/-- Range of `prob_score` when the raw value is absent or lies in
`[0, 100]`. -/
theorem probScore_range (lat lng : PyFloat) (date param : String) (val : Option PyFloat)
    (h : val = none ∨ ∃ r, val = some r ∧ 0 ≤ r.toRat ∧ r.toRat ≤ 100) :
    0 ≤ probScore lat lng date param val ∧ probScore lat lng date param val ≤ 100 := by
  rcases h with hnone | ⟨r, hr, h0, h100⟩
  · subst hnone
    simpa only [probScore] using seed_score_range [.flt lat, .flt lng, .str param, .str date]
  · subst hr
    simp only [probScore]
    split_ifs with hP hC hT hW
    · constructor
      · refine le_min (by norm_num) (le_pyRound 0 _ ?_)
        rw [toRat_pyMul, toRat_pyOfInt]
        push_cast
        exact mul_nonneg h0 (by norm_num)
      · exact min_le_left _ _
    · constructor
      · exact le_pyRound 0 _ (by push_cast; exact h0)
      · exact pyRound_le 100 _ (by push_cast; exact h100)
    · have hc0 : 0 ≤ (pyMax (pyOfInt 0) (pyMin (pyOfInt 100)
          (pyMul (pySub r (pyOfInt 10)) (pyOfInt 3)))).toRat := by
        rw [toRat_pyMax, toRat_pyOfInt]
        exact le_max_of_le_left (by norm_num)
      have hc100 : (pyMax (pyOfInt 0) (pyMin (pyOfInt 100)
          (pyMul (pySub r (pyOfInt 10)) (pyOfInt 3)))).toRat ≤ 100 := by
        rw [toRat_pyMax, toRat_pyMin, toRat_pyOfInt, toRat_pyOfInt]
        exact max_le (by norm_num) (min_le_of_left_le (by norm_num))
      rw [pyTrunc_eq_floor _ hc0]
      constructor
      · exact Int.le_floor.mpr (by push_cast; exact hc0)
      · calc ⌊(pyMax (pyOfInt 0) (pyMin (pyOfInt 100)
            (pyMul (pySub r (pyOfInt 10)) (pyOfInt 3)))).toRat⌋
            ≤ ⌊(100 : ℚ)⌋ := Int.floor_le_floor hc100
          _ = 100 := by norm_num
    · constructor
      · refine le_min (by norm_num) (le_pyRound 0 _ ?_)
        rw [toRat_pyMul, toRat_pyOfInt]
        push_cast
        exact mul_nonneg h0 (by norm_num)
      · exact min_le_left _ _
    · simpa using seed_score_range [.flt lat, .flt lng, .str param, .str date]

/-- The probabilities of a handler result, by the validation outcome. -/
theorem probsOf_api_weather (u : UpstreamResult) (req : WeatherRequest) (Y : ℕ) :
    probsOf (api_weather u req Y) =
      match validate_request req with
      | .error _ => []
      | .ok _ => (resolveParams req.conditions).map
          (mkEntry req.lat req.lng req.date
            (fetch_nasa_data u req.lat req.lng req.date (resolveParams req.conditions))) := by
  unfold api_weather probsOf
  cases validate_request req <;> rfl

/-- Every emitted probability entry is the loop body applied to one of
the resolved parameters. -/
theorem mem_probs (u : UpstreamResult) (req : WeatherRequest) (Y : ℕ)
    (e : ProbabilityEntry) (he : e ∈ probsOf (api_weather u req Y)) :
    ∃ param, param ∈ resolveParams req.conditions ∧
      e = mkEntry req.lat req.lng req.date
        (fetch_nasa_data u req.lat req.lng req.date (resolveParams req.conditions)) param := by
  rw [probsOf_api_weather] at he
  cases hv : validate_request req with
  | error m => rw [hv] at he; simp at he
  | ok x =>
    rw [hv] at he
    obtain ⟨param, hp, hfe⟩ := List.mem_map.mp he
    exact ⟨param, hp, hfe.symm⟩

/-! ## Helper facts for the claims -/

instance {ε α : Type} [DecidableEq ε] [DecidableEq α] : DecidableEq (Except ε α) :=
  fun a b =>
  match a, b with
  | .ok x, .ok y =>
    match decEq x y with
    | isTrue h => isTrue (congrArg Except.ok h)
    | isFalse h => isFalse (fun hh => h (by injection hh))
  | .error x, .error y =>
    match decEq x y with
    | isTrue h => isTrue (congrArg Except.error h)
    | isFalse h => isFalse (fun hh => h (by injection hh))
  | .ok _, .error _ => isFalse (fun hh => by injection hh)
  | .error _, .ok _ => isFalse (fun hh => by injection hh)

/-- The resolution fold keeps the accumulated parameter list duplicate
free. -/
theorem resolve_fold_nodup (conds : List String) :
    ∀ acc : List String, acc.Nodup →
      (conds.foldl (fun acc cond =>
        match lookupTable CONDITION_TO_PARAM (lowerStr cond) with
        | some param => if param ∈ acc then acc else acc ++ [param]
        | none => acc) acc).Nodup := by
  induction conds with
  | nil => intro acc h; exact h
  | cons c cs ih =>
    intro acc h
    rw [List.foldl_cons]
    apply ih
    cases hl : lookupTable CONDITION_TO_PARAM (lowerStr c) with
    | none => simpa [hl] using h
    | some param =>
      by_cases hmem : param ∈ acc
      · simpa [hl, hmem] using h
      · simp only [hl, if_neg hmem]
        exact List.Nodup.append h (List.nodup_singleton _)
          (by simp [List.disjoint_singleton, hmem])

/-- The trend years, unfolded. -/
theorem build_trend_years (lat lng : PyFloat) (params : List String) (Y : ℕ) :
    (build_trend lat lng params Y).years =
      ((List.range 20).reverse).map (fun i => toString (Y - i)) := rfl

/-- The trend conditions, unfolded. -/
theorem build_trend_conditions (lat lng : PyFloat) (params : List String) (Y : ℕ) :
    (build_trend lat lng params Y).conditions = params.map (fun param =>
      { name := param
        values := (((List.range 20).reverse).map (fun i => toString (Y - i))).map
          (fun y => seed_number [.flt lat, .flt lng, .str param, .str y] 101)
        color := colorGet param : TrendCondition }) := rfl

/-! ## The claims -/

/-- Claim C7: the deterministic number generator is a pure function: two
calls on identical part lists with the same positive modulus return the
identical integer, and that integer lies in `[0, modulo)`. -/
theorem claim_C7 (parts₁ parts₂ : List PyScalar) (modulo : ℕ)
    (hparts : parts₁ = parts₂) (hm : 0 < modulo) :
    seed_number parts₁ modulo = seed_number parts₂ modulo ∧
    seed_number parts₁ modulo < modulo := by
  subst hparts
  exact ⟨rfl, seed_number_lt parts₁ modulo hm⟩

/-- Witness for C7 at a concrete part list and modulus. -/
theorem claim_C7_witness :
    seed_number [.str "0.0"] 11 = seed_number [.str "0.0"] 11 ∧
    seed_number [.str "0.0"] 11 < 11 :=
  claim_C7 [.str "0.0"] [.str "0.0"] 11 rfl (by norm_num)

/-- Claim C8: the pinned scoring boundary values — PRECTOT raw `3.2`
scores 64, T2M raw `10` scores 0, T2M raw `50` scores 100 (clamped), and
WS2M raw `15` scores 100 (capped). -/
theorem claim_C8 :
    probScore ⟨0, 0⟩ ⟨0, 0⟩ "2024-03-15" "PRECTOT" (some ⟨32, 1⟩) = 64 ∧
    probScore ⟨0, 0⟩ ⟨0, 0⟩ "2024-03-15" "T2M" (some ⟨10, 0⟩) = 0 ∧
    probScore ⟨0, 0⟩ ⟨0, 0⟩ "2024-03-15" "T2M" (some ⟨50, 0⟩) = 100 ∧
    probScore ⟨0, 0⟩ ⟨0, 0⟩ "2024-03-15" "WS2M" (some ⟨15, 0⟩) = 100 := by
  refine ⟨?_, ?_, ?_, ?_⟩ <;> decide

/-- Claim C5: condition resolution lower-cases, maps through the table,
deduplicates preserving first occurrence; an empty or unresolvable input
yields the fixed default, so the result is never empty and never holds a
duplicate; `["RAIN", "rain", "Wet"]` resolves to `["PRECTOT"]`. -/
theorem claim_C5 :
    resolveParams ["RAIN", "rain", "Wet"] = ["PRECTOT"] ∧
    resolveParams [] = ["T2M", "PRECTOT", "CLDTT"] ∧
    ∀ conds : List String, (resolveParams conds).Nodup ∧ resolveParams conds ≠ [] := by
  refine ⟨by decide, by decide, fun conds => ?_⟩
  unfold resolveParams
  by_cases h : (conds.foldl (fun acc cond =>
      match lookupTable CONDITION_TO_PARAM (lowerStr cond) with
      | some param => if param ∈ acc then acc else acc ++ [param]
      | none => acc) []) = []
  · rw [if_pos h]
    exact ⟨by decide, by decide⟩
  · rw [if_neg h]
    exact ⟨resolve_fold_nodup conds [] List.nodup_nil, h⟩

/-- Claim C4: validation checks latitude, longitude, date, threshold and
condition membership in that order, reporting the first failed check
(shown by requests failing several checks at once), with the pinned
boundary outcomes; and a failed validation short-circuits the handler,
whose result is then the error payload alone, untouched by fetching or
scoring. -/
theorem claim_C4 :
    (validate_request ⟨⟨90, 0⟩, ⟨0, 0⟩, "2024-03-15", 50, []⟩ = .ok ()) ∧
    (validate_request ⟨⟨-90, 0⟩, ⟨0, 0⟩, "2024-03-15", 50, []⟩ = .ok ()) ∧
    (validate_request ⟨⟨900001, 4⟩, ⟨0, 0⟩, "2024-03-15", 50, []⟩ =
      .error "Latitude must be -90 to 90") ∧
    (validate_request ⟨⟨0, 0⟩, ⟨0, 0⟩, "2024-02-30", 50, []⟩ =
      .error "Date must be YYYY-MM-DD") ∧
    (validate_request ⟨⟨0, 0⟩, ⟨0, 0⟩, "2024-03-15", 100, []⟩ = .ok ()) ∧
    (validate_request ⟨⟨0, 0⟩, ⟨0, 0⟩, "2024-03-15", 101, []⟩ =
      .error "Threshold must be 0-100") ∧
    (validate_request ⟨⟨91, 0⟩, ⟨181, 0⟩, "bad", 101, ["bogus"]⟩ =
      .error "Latitude must be -90 to 90") ∧
    (validate_request ⟨⟨0, 0⟩, ⟨181, 0⟩, "bad", 101, ["bogus"]⟩ =
      .error "Longitude must be -180 to 180") ∧
    (validate_request ⟨⟨0, 0⟩, ⟨0, 0⟩, "bad", 101, ["bogus"]⟩ =
      .error "Date must be YYYY-MM-DD") ∧
    (validate_request ⟨⟨0, 0⟩, ⟨0, 0⟩, "2024-03-15", 101, ["bogus"]⟩ =
      .error "Threshold must be 0-100") ∧
    (validate_request ⟨⟨0, 0⟩, ⟨0, 0⟩, "2024-03-15", 50, ["bogus"]⟩ =
      .error "Invalid condition: bogus") ∧
    (∀ (req : WeatherRequest) (u : UpstreamResult) (Y : ℕ) (msg : String),
      validate_request req = .error msg → api_weather u req Y = .error msg) := by
  refine ⟨by decide, by decide, by decide, by decide, by decide, by decide, by decide,
    by decide, by decide, by decide, by decide, ?_⟩
  intro req u Y msg h
  unfold api_weather
  rw [h]

/-- Witness for C4's short-circuit arm at a concrete invalid request. -/
theorem claim_C4_witness :
    api_weather .failure ⟨⟨901, 1⟩, ⟨0, 0⟩, "2024-03-15", 50, []⟩ 2025 =
      .error "Latitude must be -90 to 90" :=
  claim_C4.2.2.2.2.2.2.2.2.2.2.2 ⟨⟨901, 1⟩, ⟨0, 0⟩, "2024-03-15", 50, []⟩ .failure 2025
    "Latitude must be -90 to 90" (by decide)

/-- Claim C1 fails on the code: a CLDTT raw value of `150.0` (an
out-of-range upstream value) is scored as `round(150.0) = 150`, so a
reachable response holds a probability entry whose `value` is 150, not in
`[0, 100]`. -/
theorem claim_C1_counterexample :
    (probsOf (api_weather (.success [("CLDTT", [("20240315", ⟨150, 0⟩)])])
        ⟨⟨0, 0⟩, ⟨0, 0⟩, "2024-03-15", 50, ["cloud"]⟩ 2025)).map (fun e => e.value) =
      [some 150] ∧
    ¬((150 : ℤ) ≤ 100) := by
  exact ⟨by decide, by decide⟩

/-- Claim C1 as amended: every emitted probability entry has a non-null
`value`; the value lies in `[0, 100]` whenever the entry's raw value is
null (the fallback) or lies in `[0, 100]` itself — but raw values outside
`[0, 100]` can drive PRECTOT, CLDTT and WS2M scores out of range. -/
theorem claim_C1 (u : UpstreamResult) (req : WeatherRequest) (Y : ℕ)
    (e : ProbabilityEntry) (he : e ∈ probsOf (api_weather u req Y)) :
    (∃ v : ℤ, e.value = some v) ∧
    (e.raw = none → ∃ v : ℤ, e.value = some v ∧ 0 ≤ v ∧ v ≤ 100) ∧
    (∀ r : PyFloat, e.raw = some r → 0 ≤ r.toRat → r.toRat ≤ 100 →
      ∃ v : ℤ, e.value = some v ∧ 0 ≤ v ∧ v ≤ 100) := by
  obtain ⟨param, hp, rfl⟩ := mem_probs u req Y e he
  refine ⟨⟨_, rfl⟩, ?_, ?_⟩
  · intro hraw
    exact ⟨_, rfl, probScore_range req.lat req.lng req.date param _ (Or.inl hraw)⟩
  · intro r hraw h0 h100
    exact ⟨_, rfl, probScore_range req.lat req.lng req.date param _
      (Or.inr ⟨r, hraw, h0, h100⟩)⟩

/-- Witness for C1 at a concrete request with a present in-range raw. -/
theorem claim_C1_witness :
    ∃ v : ℤ,
      (⟨"T2M", "T2M", some 45, some ⟨25, 0⟩, "#FF6B3A"⟩ : ProbabilityEntry).value = some v ∧
      0 ≤ v ∧ v ≤ 100 :=
  (claim_C1 (.success [("T2M", [("20240315", ⟨25, 0⟩)])])
    ⟨⟨0, 0⟩, ⟨0, 0⟩, "2024-03-15", 50, ["hot"]⟩ 2025
    ⟨"T2M", "T2M", some 45, some ⟨25, 0⟩, "#FF6B3A"⟩ (by decide)).2.2
    ⟨25, 0⟩ rfl (by norm_num [PyFloat.toRat]) (by norm_num [PyFloat.toRat])

/-- Claim C2 fails on the code: for a T2M raw of `10.5` the source
computes `int(max(0, min(100, (10.5 - 10) * 3))) = int(1.5) = 1`
(truncation after clamping), while the spec's formula
`clamp(round((raw - 10) * 3), 0, 100)` gives `clamp(round(1.5)) = 2`. -/
theorem claim_C2_counterexample :
    (probsOf (api_weather (.success [("T2M", [("20240315", ⟨105, 1⟩)])])
        ⟨⟨0, 0⟩, ⟨0, 0⟩, "2024-03-15", 50, ["hot"]⟩ 2025)).map (fun e => e.value) =
      [some 1] ∧
    specT2MScore (PyFloat.toRat ⟨105, 1⟩) = 2 ∧ (1 : ℤ) ≠ 2 := by
  refine ⟨by decide, ?_, by decide⟩
  have ht : (PyFloat.toRat ⟨105, 1⟩) = 21 / 2 := by norm_num [PyFloat.toRat]
  have hq : ((21 : ℚ) / 2 - 10) * 3 = 3 / 2 := by norm_num
  have hf : ⌊(3 / 2 : ℚ)⌋ = 1 := by
    apply Int.floor_eq_iff.mpr
    constructor <;> norm_num
  unfold specT2MScore ratRound
  rw [ht, hq, hf]
  norm_num

/-- Claim C2 as amended: for a present T2M raw the score is the scaled
value `(raw - 10) * 3` clamped to `[0, 100]` first and then truncated
(equivalently floored, the clamped value being nonnegative) — not rounded
to nearest. -/
theorem claim_C2 (u : UpstreamResult) (req : WeatherRequest) (Y : ℕ)
    (e : ProbabilityEntry) (he : e ∈ probsOf (api_weather u req Y))
    (hparam : e.parameter = "T2M") (r : PyFloat) (hraw : e.raw = some r) :
    e.value = some ⌊max 0 (min 100 ((r.toRat - 10) * 3))⌋ := by
  obtain ⟨param, hp, rfl⟩ := mem_probs u req Y e he
  have hparam' : param = "T2M" := hparam
  subst hparam'
  have hv : rawLookup
      (fetch_nasa_data u req.lat req.lng req.date (resolveParams req.conditions))
      "T2M" (removeDashes req.date) = some r := hraw
  show some (probScore req.lat req.lng req.date "T2M" _) = _
  rw [hv]
  simp only [probScore]
  rw [if_neg (by decide), if_neg (by decide), if_pos trivial]
  have hc0 : 0 ≤ (pyMax (pyOfInt 0) (pyMin (pyOfInt 100)
      (pyMul (pySub r (pyOfInt 10)) (pyOfInt 3)))).toRat := by
    rw [toRat_pyMax, toRat_pyOfInt]
    exact le_max_of_le_left (by norm_num)
  rw [pyTrunc_eq_floor _ hc0]
  congr 1
  simp only [toRat_pyMax, toRat_pyMin, toRat_pyMul, toRat_pySub, toRat_pyOfInt]
  norm_num

/-- Witness for C2 as amended, at a T2M raw of `25.0` scoring 45. -/
theorem claim_C2_witness :
    (⟨"T2M", "T2M", some 45, some ⟨25, 0⟩, "#FF6B3A"⟩ : ProbabilityEntry).value =
      some ⌊max 0 (min 100 (((⟨25, 0⟩ : PyFloat).toRat - 10) * 3))⌋ :=
  claim_C2 (.success [("T2M", [("20240315", ⟨25, 0⟩)])])
    ⟨⟨0, 0⟩, ⟨0, 0⟩, "2024-03-15", 50, ["hot"]⟩ 2025
    ⟨"T2M", "T2M", some 45, some ⟨25, 0⟩, "#FF6B3A"⟩ (by decide) rfl ⟨25, 0⟩ rfl

/-- Claim C3: a failed upstream fetch yields the empty mapping rather
than an error, and whenever the handler runs against the failed fetch,
every probability entry keeps `raw` null while its `value` is the
deterministic fallback `seed((lat, lng, parameter, date), modulo=101)` —
never null. -/
theorem claim_C3 :
    (∀ (lat lng : PyFloat) (date : String) (params : List String),
      fetch_nasa_data .failure lat lng date params = []) ∧
    (∀ (req : WeatherRequest) (Y : ℕ) (e : ProbabilityEntry),
      e ∈ probsOf (api_weather .failure req Y) →
      e.raw = none ∧
      e.value = some ((seed_number
        [.flt req.lat, .flt req.lng, .str e.parameter, .str req.date] 101 : ℕ) : ℤ)) := by
  refine ⟨fun _ _ _ _ => rfl, fun req Y e he => ?_⟩
  obtain ⟨param, hp, rfl⟩ := mem_probs .failure req Y e he
  exact ⟨rfl, rfl⟩

set_option maxRecDepth 40000 in
/-- Witness for C3 at a concrete request whose conditions default;
the T2M entry carries the concrete fallback value 80. -/
theorem claim_C3_witness :
    (⟨"T2M", "T2M", some 80, none, "#FF6B3A"⟩ : ProbabilityEntry).raw = none ∧
    (⟨"T2M", "T2M", some 80, none, "#FF6B3A"⟩ : ProbabilityEntry).value =
      some ((seed_number [.flt ⟨0, 0⟩, .flt ⟨0, 0⟩, .str "T2M", .str "2024-03-15"] 101 : ℕ) : ℤ) :=
  claim_C3.2 ⟨⟨0, 0⟩, ⟨0, 0⟩, "2024-03-15", 50, []⟩ 2025
    ⟨"T2M", "T2M", some 80, none, "#FF6B3A"⟩ (by decide)

/-- Claim C6: the trend holds exactly 20 year strings, ascending from
`Y - 19` to `Y`; each resolved parameter gets the 20 values
`seed((lat, lng, parameter, year), modulo=101)`, all at most 100; and the
trend of a handler response never depends on the fetched upstream data. -/
theorem claim_C6 (lat lng : PyFloat) (params : List String) (Y : ℕ) (hY : 19 ≤ Y) :
    (build_trend lat lng params Y).years.length = 20 ∧
    (∀ i, i < 20 → (build_trend lat lng params Y).years.getD i "" = toString (Y - 19 + i)) ∧
    (build_trend lat lng params Y).conditions = params.map (fun param =>
      { name := param
        values := (build_trend lat lng params Y).years.map
          (fun y => seed_number [.flt lat, .flt lng, .str param, .str y] 101)
        color := colorGet param : TrendCondition }) ∧
    (∀ tc ∈ (build_trend lat lng params Y).conditions,
      tc.values.length = 20 ∧ ∀ v ∈ tc.values, v ≤ 100) ∧
    (∀ (u₁ u₂ : UpstreamResult) (req : WeatherRequest) (Y' : ℕ),
      trendOf (api_weather u₁ req Y') = trendOf (api_weather u₂ req Y')) := by
  refine ⟨?_, ?_, rfl, ?_, ?_⟩
  · rw [build_trend_years]
    simp
  · intro i hi
    rw [build_trend_years]
    interval_cases i <;> simp [List.getD] <;> congr 1 <;> omega
  · intro tc htc
    rw [build_trend_conditions] at htc
    obtain ⟨param, hparam, rfl⟩ := List.mem_map.mp htc
    constructor
    · simp
    · intro v hv
      obtain ⟨y, hy, rfl⟩ := List.mem_map.mp hv
      exact Nat.lt_succ_iff.mp
        (seed_number_lt [.flt lat, .flt lng, .str param, .str y] 101 (by norm_num))
  · intro u₁ u₂ req Y'
    unfold trendOf api_weather
    cases validate_request req <;> rfl

/-- Witness for C6 at a concrete location, parameter list and year. -/
theorem claim_C6_witness :
    (build_trend ⟨0, 0⟩ ⟨0, 0⟩ ["T2M"] 2025).years.length = 20 :=
  (claim_C6 ⟨0, 0⟩ ⟨0, 0⟩ ["T2M"] 2025 (by norm_num)).1

/-- Claim C9: the threshold is dead for scoring — two requests differing
only in their (in-range) thresholds produce the identical handler result,
so the computed location, date, probabilities and trend coincide. -/
theorem claim_C9 (req : WeatherRequest) (t₁ t₂ : ℤ) (u : UpstreamResult) (Y : ℕ)
    (h₁ : 0 ≤ t₁) (h₂ : t₁ ≤ 100) (h₃ : 0 ≤ t₂) (h₄ : t₂ ≤ 100) :
    api_weather u { req with threshold := t₁ } Y =
      api_weather u { req with threshold := t₂ } Y := by
  have hval : validate_request { req with threshold := t₁ } =
      validate_request { req with threshold := t₂ } := by
    unfold validate_request
    simp [h₁, h₂, h₃, h₄]
  unfold api_weather
  rw [hval]

/-- Witness for C9 at thresholds 0 and 100. -/
theorem claim_C9_witness :
    api_weather .failure ⟨⟨0, 0⟩, ⟨0, 0⟩, "2024-03-15", 0, []⟩ 2025 =
      api_weather .failure ⟨⟨0, 0⟩, ⟨0, 0⟩, "2024-03-15", 100, []⟩ 2025 :=
  claim_C9 ⟨⟨0, 0⟩, ⟨0, 0⟩, "2024-03-15", 77, []⟩ 0 100 .failure 2025
    (by norm_num) (by norm_num) (by norm_num) (by norm_num)

/-- Claim C10: every emitted probability entry's `condition` equals its
`parameter` (the canonical code), so the CSV export's `parameter` and
`condition` cells agree on every data row. -/
theorem claim_C10 (u : UpstreamResult) (req : WeatherRequest) (Y : ℕ) :
    (∀ e ∈ probsOf (api_weather u req Y), e.condition = e.parameter) ∧
    (∀ row ∈ (export_csv_rows (api_weather u req Y)).drop 1,
      row.getD 0 "" = row.getD 1 "") := by
  constructor
  · intro e he
    obtain ⟨param, hp, rfl⟩ := mem_probs u req Y e he
    rfl
  · intro row hrow
    simp only [export_csv_rows, List.drop_succ_cons, List.drop_zero] at hrow
    obtain ⟨p, hp, rfl⟩ := List.mem_map.mp hrow
    obtain ⟨param, hparam, rfl⟩ := mem_probs u req Y p hp
    rfl

/-- Witness for C10 at a concrete request with one resolved parameter. -/
theorem claim_C10_witness :
    (⟨"T2M", "T2M", some 45, some ⟨25, 0⟩, "#FF6B3A"⟩ : ProbabilityEntry).condition =
      (⟨"T2M", "T2M", some 45, some ⟨25, 0⟩, "#FF6B3A"⟩ : ProbabilityEntry).parameter :=
  (claim_C10 (.success [("T2M", [("20240315", ⟨25, 0⟩)])])
    ⟨⟨0, 0⟩, ⟨0, 0⟩, "2024-03-15", 50, ["hot"]⟩ 2025).1
    ⟨"T2M", "T2M", some 45, some ⟨25, 0⟩, "#FF6B3A"⟩ (by decide)
